import Mathlib

/-!
Verification of `docs/init-project_scripts/install-dependencies.py`.

The script is a sequential installer: it probes for Node.js and Yarn, then
issues 26 `yarn add` commands in five fixed groups, printing status lines
and sleeping 2 seconds after each install attempt.

Shallow embedding: the external world is a function `Env` from a command
string to a `SpawnOutcome` (the observable behaviour of
`subprocess.run(command, shell=True, check=True, ...)` in Python: either the
spawned shell exits with some code and produces stdout/stderr text, or the
OS-level spawn itself fails, in which case `subprocess.run` raises an
`OSError`-family exception). The Python code catches only
`subprocess.CalledProcessError` (the non-zero-exit case, raised because
`check=True`), so a spawn failure propagates; we model a propagating
exception with `Except`. Observable effects (lines printed by `print`,
`time.sleep` calls, commands handed to `subprocess.run`) are accumulated in
a `Trace` threaded through the functions.
-/

namespace InstallScript

/-- Observable behaviour of one `subprocess.run(command, shell=True, ...)`
call: the shell process exits with a code and produces output text, or the
spawn itself fails at the OS level (Python raises, e.g. `FileNotFoundError`
when the shell binary is missing, or `OSError` on fork failure). -/
inductive SpawnOutcome where
  | exit (code : Nat) (stdout stderr : String)
  | oserror
deriving DecidableEq, Repr

/-- The spawn produced a process that ran to an exit status (of any code). -/
def SpawnOutcome.isExit : SpawnOutcome → Bool
  | .exit _ _ _ => true
  | .oserror => false

/-- The spawn produced a process that exited with status zero. -/
def SpawnOutcome.exitsZero : SpawnOutcome → Bool
  | .exit 0 _ _ => true
  | _ => false

/-- The external world: what each issued shell command does when run.
All commands the script issues are pairwise distinct strings, so indexing
by the command string loses nothing. -/
abbrev Env := String → SpawnOutcome

/-- A Python exception that escapes the except-clauses of the script.
Only the OS-level spawn failure can do so: `subprocess.CalledProcessError`
is always caught. -/
inductive PyError where
  | oserror
deriving DecidableEq, Repr

/-- Observable effects of a run: lines printed via `print` (each `print`
call is one entry, newlines embedded in the argument kept verbatim),
`time.sleep` durations in seconds, and the command strings handed to
`subprocess.run`, each in chronological order. -/
structure Trace where
  lines : List String
  sleeps : List Nat
  spawned : List String
deriving DecidableEq, Repr

def Trace.empty : Trace := ⟨[], [], []⟩

/-- Effect of one `print(l)` call. -/
def Trace.emit (t : Trace) (l : String) : Trace :=
  { t with lines := t.lines ++ [l] }

/-- Effect of one `time.sleep(n)` call. -/
def Trace.sleep (t : Trace) (n : Nat) : Trace :=
  { t with sleeps := t.sleeps ++ [n] }

/-- Effect of handing a command to `subprocess.run`. The attempt is
recorded even when the OS-level spawn fails. -/
def Trace.spawn (t : Trace) (c : String) : Trace :=
  { t with spawned := t.spawned ++ [c] }

/-- `check_dependency(command, name)` from the script.

```python
def check_dependency(command: str, name: str) -> bool:
    try:
        subprocess.run(command, shell=True, check=True,
                       stdout=subprocess.PIPE, stderr=subprocess.PIPE)
        print(f"✓ {name} is installed")
        return True
    except subprocess.CalledProcessError:
        print(f"✗ {name} is not installed")
        return False
```

`stdout=PIPE, stderr=PIPE` captures the probe output into the discarded
`CompletedProcess`, so no output text reaches the trace. Exit code zero
returns `True`; a non-zero exit raises `CalledProcessError` (because of
`check=True`), which is caught and returns `False`; an OS-level spawn
failure raises an exception that is not a `CalledProcessError` and
propagates. -/
def check_dependency (env : Env) (command name : String) (t : Trace) :
    Trace × Except PyError Bool :=
  let t := t.spawn command
  match env command with
  | .oserror => (t, .error .oserror)
  | .exit 0 _ _ => (t.emit ("✓ " ++ name ++ " is installed"), .ok true)
  | .exit (_ + 1) _ _ => (t.emit ("✗ " ++ name ++ " is not installed"), .ok false)

/-- `run_command(command, success_message)` from the script.

```python
def run_command(command: str, success_message: str) -> bool:
    try:
        subprocess.run(command, shell=True, check=True)
        print(f"✓ {success_message}")
        time.sleep(2)
        return True
    except subprocess.CalledProcessError:
        print(f"✗ Failed to install: {success_message}")
        time.sleep(2)
        return False
```

Same exception structure as `check_dependency`, with a 2-second sleep after
either printed outcome. (The child process inherits stdout/stderr here;
only lines printed by the Python `print` calls enter `Trace.lines`.) -/
def run_command (env : Env) (command success_message : String) (t : Trace) :
    Trace × Except PyError Bool :=
  let t := t.spawn command
  match env command with
  | .oserror => (t, .error .oserror)
  | .exit 0 _ _ =>
      ((t.emit ("✓ " ++ success_message)).sleep 2, .ok true)
  | .exit (_ + 1) _ _ =>
      ((t.emit ("✗ Failed to install: " ++ success_message)).sleep 2, .ok false)

/-- The command string built by line 32 of the script:
`f"yarn add {'--dev' if is_dev else ''} {package}"`. -/
def installCommand (is_dev : Bool) (package : String) : String :=
  "yarn add " ++ (if is_dev then "--dev" else "") ++ " " ++ package

/-- `install_packages(packages, is_dev)` from the script: one
`run_command` per `(package, message)` pair, in list order. A loop
iteration only ends early if `run_command` raises (which the loop does not
catch); the boolean result of `run_command` is ignored. -/
def install_packages (env : Env) (packages : List (String × String))
    (is_dev : Bool) (t : Trace) : Trace × Except PyError Unit :=
  match packages with
  | [] => (t, .ok ())
  | (package, message) :: rest =>
      let (t, r) := run_command env (installCommand is_dev package) message t
      match r with
      | .error e => (t, .error e)
      | .ok _ => install_packages env rest is_dev t

/-- The `core_packages` list from `main`. -/
def core_packages : List (String × String) := [
  ("express@^4.18.2", "Express installed"),
  ("cors@^2.8.5", "CORS installed"),
  ("helmet@^7.1.0", "Helmet installed"),
  ("express-rate-limit@^7.1.5", "Express Rate Limit installed"),
  ("compression@^1.7.4", "Compression installed"),
  ("dotenv@^16.4.5", "Dotenv installed")]

/-- The `db_packages` list from `main`. -/
def db_packages : List (String × String) := [
  ("pg@^8.11.3", "PostgreSQL client installed"),
  ("pg-hstore@^2.3.4", "PostgreSQL HStore installed"),
  ("sequelize@^6.37.1", "Sequelize installed"),
  ("sequelize-cli@^6.6.2", "Sequelize CLI installed")]

/-- The `security_packages` list from `main`. -/
def security_packages : List (String × String) := [
  ("bcrypt@^5.1.1", "Bcrypt installed"),
  ("jsonwebtoken@^9.0.2", "JSON Web Token installed"),
  ("cookie-parser@^1.4.6", "Cookie Parser installed")]

/-- The `utility_packages` list from `main`. -/
def utility_packages : List (String × String) := [
  ("multer@^1.4.5-lts.1", "Multer installed"),
  ("sharp@^0.33.2", "Sharp installed"),
  ("redis@^4.6.13", "Redis installed"),
  ("nodemailer@^6.9.9", "Nodemailer installed"),
  ("joi@^17.12.2", "Joi installed"),
  ("winston@^3.11.0", "Winston installed"),
  ("swagger-ui-express@^5.0.0", "Swagger UI Express installed"),
  ("aws-sdk@^2.1564.0", "AWS SDK installed"),
  ("lodash@^4.17.21", "Lodash installed")]

/-- The `dev_packages` list from `main`. -/
def dev_packages : List (String × String) := [
  ("nodemon@^3.0.3", "Nodemon installed"),
  ("eslint@^8.57.0", "ESLint installed"),
  ("jest@^29.7.0", "Jest installed"),
  ("supertest@^6.3.4", "Supertest installed")]

/-- How the process ends: `exit c` is a normal process exit with status
`c` (`sys.exit(1)`, or falling off the end of `main` for status 0);
`uncaught e` is an exception escaping `main` (the Python interpreter then
prints a traceback and exits with status 1). -/
inductive MainResult where
  | exit (code : Nat)
  | uncaught (e : PyError)
deriving DecidableEq, Repr

/-- `main()` from the script, started on an empty trace. -/
def main (env : Env) : Trace × MainResult :=
  let t := Trace.empty.emit "Checking dependencies..."
  let (t, r) := check_dependency env "node --version" "Node.js" t
  match r with
  | .error e => (t, .uncaught e)
  | .ok false =>
      (t.emit "\nPlease install Node.js first. You can download it from https://nodejs.org/",
       .exit 1)
  | .ok true =>
  let (t, r) := check_dependency env "yarn --version" "Yarn" t
  match r with
  | .error e => (t, .uncaught e)
  | .ok false =>
      (t.emit "\nPlease install Yarn first. You can install it using npm: npm install -g yarn",
       .exit 1)
  | .ok true =>
  let t := t.emit "\nStarting installation..."
  let t := t.emit "\nInstalling core packages..."
  let (t, r) := install_packages env core_packages false t
  match r with
  | .error e => (t, .uncaught e)
  | .ok _ =>
  let t := t.emit "\nInstalling database packages..."
  let (t, r) := install_packages env db_packages false t
  match r with
  | .error e => (t, .uncaught e)
  | .ok _ =>
  let t := t.emit "\nInstalling security packages..."
  let (t, r) := install_packages env security_packages false t
  match r with
  | .error e => (t, .uncaught e)
  | .ok _ =>
  let t := t.emit "\nInstalling utility packages..."
  let (t, r) := install_packages env utility_packages false t
  match r with
  | .error e => (t, .uncaught e)
  | .ok _ =>
  let t := t.emit "\nInstalling development packages..."
  let (t, r) := install_packages env dev_packages true t
  match r with
  | .error e => (t, .uncaught e)
  | .ok _ =>
  (t.emit "\nInstallation completed!", .exit 0)

/-- The 26 install command strings in the order the script issues them:
core, database, security, utility (all without development mode), then
development (with development mode). -/
def allInstallCommands : List String :=
  (core_packages ++ db_packages ++ security_packages ++ utility_packages).map
    (fun p => installCommand false p.1)
  ++ dev_packages.map (fun p => installCommand true p.1)

/-- The full ordered list of commands `main` hands to `subprocess.run`
when both probes pass and every install spawn runs to an exit. -/
def fullSpawned : List String :=
  "node --version" :: "yarn --version" :: allInstallCommands

/-- The status line `run_command` prints for one package entry, as a
function of what its install command does in the environment. -/
def installLine (env : Env) (is_dev : Bool) (p : String × String) : String :=
  if (env (installCommand is_dev p.1)).exitsZero then "✓ " ++ p.2
  else "✗ Failed to install: " ++ p.2

/-- Every line `main` prints when both probes pass and every install spawn
runs to an exit, in order. -/
def fullLines (env : Env) : List String :=
  ["Checking dependencies...", "✓ Node.js is installed", "✓ Yarn is installed",
   "\nStarting installation...", "\nInstalling core packages..."]
  ++ core_packages.map (installLine env false)
  ++ ["\nInstalling database packages..."] ++ db_packages.map (installLine env false)
  ++ ["\nInstalling security packages..."] ++ security_packages.map (installLine env false)
  ++ ["\nInstalling utility packages..."] ++ utility_packages.map (installLine env false)
  ++ ["\nInstalling development packages..."] ++ dev_packages.map (installLine env true)
  ++ ["\nInstallation completed!"]

/-- The sleeps `main` performs in a fully attempted run: 2 seconds after
each of the 26 install attempts. -/
def fullSleeps : List Nat := List.replicate 26 2

/-- The exact sequence of `print` lines of the all-success run. -/
def allSuccessLines : List String :=
  ["Checking dependencies...",
   "✓ Node.js is installed",
   "✓ Yarn is installed",
   "\nStarting installation...",
   "\nInstalling core packages...",
   "✓ Express installed", "✓ CORS installed", "✓ Helmet installed",
   "✓ Express Rate Limit installed", "✓ Compression installed", "✓ Dotenv installed",
   "\nInstalling database packages...",
   "✓ PostgreSQL client installed", "✓ PostgreSQL HStore installed",
   "✓ Sequelize installed", "✓ Sequelize CLI installed",
   "\nInstalling security packages...",
   "✓ Bcrypt installed", "✓ JSON Web Token installed", "✓ Cookie Parser installed",
   "\nInstalling utility packages...",
   "✓ Multer installed", "✓ Sharp installed", "✓ Redis installed",
   "✓ Nodemailer installed", "✓ Joi installed", "✓ Winston installed",
   "✓ Swagger UI Express installed", "✓ AWS SDK installed", "✓ Lodash installed",
   "\nInstalling development packages...",
   "✓ Nodemon installed", "✓ ESLint installed", "✓ Jest installed",
   "✓ Supertest installed",
   "\nInstallation completed!"]

/-- Split a character list at spaces into (possibly empty) tokens;
`acc` holds the characters of the current token, reversed. -/
def splitTokens : List Char → List Char → List (List Char)
  | [], acc => [acc.reverse]
  | c :: cs, acc =>
      if c = ' ' then acc.reverse :: splitTokens cs []
      else splitTokens cs (c :: acc)

/-- Whether a command string carries `--dev` as a space-separated token. -/
def hasDevFlag (cmd : String) : Bool :=
  (splitTokens cmd.data []).contains "--dev".data

/-- An environment in which exactly one security-group install (bcrypt)
exits non-zero and every other command exits zero. -/
def securityFailEnv : Env := fun c =>
  if c = installCommand false "bcrypt@^5.1.1" then SpawnOutcome.exit 1 "" ""
  else SpawnOutcome.exit 0 "" ""

/-- Helper: non-development install commands of the catalog are members of
`allInstallCommands`. -/
theorem mem_allInstallCommands_of_nondev (p : String × String)
    (hp : p ∈ core_packages ++ db_packages ++ security_packages ++ utility_packages) :
    installCommand false p.1 ∈ allInstallCommands :=
  List.mem_append_left _ (List.mem_map_of_mem _ hp)

/-- Helper: development install commands of the catalog are members of
`allInstallCommands`. -/
theorem mem_allInstallCommands_of_dev (p : String × String)
    (hp : p ∈ dev_packages) :
    installCommand true p.1 ∈ allInstallCommands :=
  List.mem_append_right _ (List.mem_map_of_mem _ hp)

theorem exitsZero_iff (o : SpawnOutcome) :
    o.exitsZero = true ↔ ∃ out err, o = .exit 0 out err := by
  cases o with
  | oserror => simp [SpawnOutcome.exitsZero]
  | exit c out err =>
    cases c with
    | zero => simp [SpawnOutcome.exitsZero]
    | succ n => simp [SpawnOutcome.exitsZero]

theorem run_command_isExit (env : Env) (cmd msg : String)
    (h : (env cmd).isExit = true) (t : Trace) :
    run_command env cmd msg t =
      (((t.spawn cmd).emit (if (env cmd).exitsZero then "✓ " ++ msg
          else "✗ Failed to install: " ++ msg)).sleep 2,
       .ok (env cmd).exitsZero) := by
  cases henv : env cmd with
  | oserror => rw [henv] at h; simp [SpawnOutcome.isExit] at h
  | exit c out err =>
    cases c with
    | zero => simp [run_command, henv, SpawnOutcome.exitsZero]
    | succ n => simp [run_command, henv, SpawnOutcome.exitsZero]

theorem install_packages_isExit (env : Env) (is_dev : Bool)
    (packages : List (String × String))
    (h : ∀ p ∈ packages, (env (installCommand is_dev p.1)).isExit = true) :
    ∀ t : Trace,
      install_packages env packages is_dev t =
        (⟨t.lines ++ packages.map (installLine env is_dev),
          t.sleeps ++ packages.map (fun _ => 2),
          t.spawned ++ packages.map (fun p => installCommand is_dev p.1)⟩,
         .ok ()) := by
  induction packages with
  | nil => intro t; simp [install_packages]
  | cons p rest ih =>
    intro t
    obtain ⟨package, message⟩ := p
    have hp := h (package, message) (List.mem_cons_self _ _)
    rw [install_packages, run_command_isExit env _ _ hp]
    dsimp only
    rw [ih (fun q hq => h q (List.mem_cons_of_mem _ hq))]
    simp [Trace.spawn, Trace.emit, Trace.sleep, installLine]

theorem main_success (env : Env)
    (hnode : (env "node --version").exitsZero = true)
    (hyarn : (env "yarn --version").exitsZero = true)
    (hinst : ∀ c ∈ allInstallCommands, (env c).isExit = true) :
    main env = (⟨fullLines env, fullSleeps, fullSpawned⟩, .exit 0) := by
  obtain ⟨o1, e1, h1⟩ := (exitsZero_iff _).1 hnode
  obtain ⟨o2, e2, h2⟩ := (exitsZero_iff _).1 hyarn
  have hcore : ∀ p ∈ core_packages, (env (installCommand false p.1)).isExit = true := by
    intro p hp
    exact hinst _ (List.mem_append_left _ (List.mem_map_of_mem _ (by simp [hp])))
  have hdb : ∀ p ∈ db_packages, (env (installCommand false p.1)).isExit = true := by
    intro p hp
    exact hinst _ (List.mem_append_left _ (List.mem_map_of_mem _ (by simp [hp])))
  have hsec : ∀ p ∈ security_packages, (env (installCommand false p.1)).isExit = true := by
    intro p hp
    exact hinst _ (List.mem_append_left _ (List.mem_map_of_mem _ (by simp [hp])))
  have hutil : ∀ p ∈ utility_packages, (env (installCommand false p.1)).isExit = true := by
    intro p hp
    exact hinst _ (List.mem_append_left _ (List.mem_map_of_mem _ (by simp [hp])))
  have hdev : ∀ p ∈ dev_packages, (env (installCommand true p.1)).isExit = true := by
    intro p hp
    exact hinst _ (List.mem_append_right _ (List.mem_map_of_mem _ hp))
  simp only [main, check_dependency, h1, h2,
    install_packages_isExit env false core_packages hcore,
    install_packages_isExit env false db_packages hdb,
    install_packages_isExit env false security_packages hsec,
    install_packages_isExit env false utility_packages hutil,
    install_packages_isExit env true dev_packages hdev]
  simp [Trace.empty, Trace.emit, Trace.sleep, Trace.spawn, fullLines, fullSleeps,
    fullSpawned, allInstallCommands, List.map_append, core_packages, db_packages,
    security_packages, utility_packages, dev_packages, List.append_assoc]

/-- C1: in every run where the Node.js probe and the Yarn probe both exit
zero and every install spawn runs to an exit status (of any code), `main`
hands exactly the two probe commands followed by the 26 install commands to
`subprocess.run`, in the fixed declared group order (core, database,
security, utility, development; entries in list order): every package entry
is attempted exactly once and no failure short-circuits the rest. -/
theorem claim_C1_every_entry_attempted_in_order (env : Env)
    (hnode : (env "node --version").exitsZero = true)
    (hyarn : (env "yarn --version").exitsZero = true)
    (hinst : ∀ c ∈ allInstallCommands, (env c).isExit = true) :
    (main env).1.spawned = "node --version" :: "yarn --version" :: allInstallCommands := by
  rw [main_success env hnode hyarn hinst]
  rfl

/-- C1 witness: a run in which one core install (cors) exits non-zero
still attempts every command in order. -/
theorem claim_C1_every_entry_attempted_in_order_witness :
    (main (fun c => if c = installCommand false "cors@^2.8.5"
        then SpawnOutcome.exit 1 "" "" else SpawnOutcome.exit 0 "" "")).1.spawned =
      "node --version" :: "yarn --version" :: allInstallCommands := by
  apply claim_C1_every_entry_attempted_in_order
  · rfl
  · rfl
  · intro c hc
    by_cases h : c = installCommand false "cors@^2.8.5" <;>
      simp [h, SpawnOutcome.isExit]

/-- C2: if the Node.js probe exits non-zero, `main` exits with status 1
having spawned only the Node.js probe: neither the Yarn probe nor any
install command is attempted. -/
theorem claim_C2_node_probe_fails (env : Env) (c : Nat) (out err : String)
    (h : env "node --version" = SpawnOutcome.exit (c + 1) out err) :
    (main env).2 = MainResult.exit 1 ∧ (main env).1.spawned = ["node --version"] := by
  constructor <;>
    simp [main, check_dependency, h, Trace.empty, Trace.emit, Trace.spawn]

/-- C2 witness: the environment in which every command exits 1. -/
theorem claim_C2_node_probe_fails_witness :
    (main (fun _ => SpawnOutcome.exit 1 "" "")).2 = MainResult.exit 1 ∧
      (main (fun _ => SpawnOutcome.exit 1 "" "")).1.spawned = ["node --version"] :=
  claim_C2_node_probe_fails _ 0 "" "" rfl

/-- C3: if the Node.js probe exits zero but the Yarn probe exits non-zero,
`main` exits with status 1 having spawned only the two probes: no
installation group is attempted. -/
theorem claim_C3_yarn_probe_fails (env : Env) (out err : String) (c : Nat)
    (out2 err2 : String)
    (hnode : env "node --version" = SpawnOutcome.exit 0 out err)
    (hyarn : env "yarn --version" = SpawnOutcome.exit (c + 1) out2 err2) :
    (main env).2 = MainResult.exit 1 ∧
      (main env).1.spawned = ["node --version", "yarn --version"] := by
  constructor <;>
    simp [main, check_dependency, hnode, hyarn, Trace.empty, Trace.emit, Trace.spawn]

/-- C3 witness: node exits 0, everything else exits 1. -/
theorem claim_C3_yarn_probe_fails_witness :
    (main (fun c => if c = "node --version" then SpawnOutcome.exit 0 "" ""
        else SpawnOutcome.exit 1 "" "")).2 = MainResult.exit 1 ∧
      (main (fun c => if c = "node --version" then SpawnOutcome.exit 0 "" ""
        else SpawnOutcome.exit 1 "" "")).1.spawned =
        ["node --version", "yarn --version"] :=
  claim_C3_yarn_probe_fails _ "" "" 0 "" "" rfl rfl

/-- C4 counterexample: in the all-success run the program prints 28
checkmark lines in total (2 prerequisite lines and one per package entry),
not the 23 + 2 = 25 the claim states: the catalog has 6 + 4 + 3 + 9 + 4
= 26 package entries, not 23. -/
theorem claim_C4_counterexample :
    ((main (fun _ => SpawnOutcome.exit 0 "" "")).1.lines.countP
        (fun l => l.data.head? == some '✓')) = 28 ∧
      allInstallCommands.length = 26 := by
  constructor <;> rfl

/-- C4 (amended: 26 install commands, not 23): when the two probes and all
26 install commands exit zero, `main` prints exactly `allSuccessLines`
(2 prerequisite checkmark lines, 26 install checkmark lines, the section
headers, and the completion banner last) and exits with status 0. -/
theorem claim_C4_all_success_run (env : Env)
    (hnode : (env "node --version").exitsZero = true)
    (hyarn : (env "yarn --version").exitsZero = true)
    (hinst : ∀ c ∈ allInstallCommands, (env c).exitsZero = true) :
    (main env).2 = MainResult.exit 0 ∧
      (main env).1.lines = allSuccessLines ∧
      allSuccessLines.countP (fun l => l.data.head? == some '✓') = 28 ∧
      allSuccessLines.getLast? = some "\nInstallation completed!" := by
  have hinst' : ∀ c ∈ allInstallCommands, (env c).isExit = true := by
    intro c hc
    obtain ⟨out, err, ho⟩ := (exitsZero_iff _).1 (hinst c hc)
    rw [ho]; rfl
  rw [main_success env hnode hyarn hinst']
  have hgroup : ∀ (d : Bool) (g : List (String × String)),
      (∀ p ∈ g, installCommand d p.1 ∈ allInstallCommands) →
      g.map (installLine env d) = g.map (fun p => "✓ " ++ p.2) := by
    intro d g hg
    refine List.map_congr_left ?_
    intro p hp
    simp [installLine, hinst _ (hg p hp)]
  refine ⟨rfl, ?_, by rfl, by rfl⟩
  show fullLines env = allSuccessLines
  unfold fullLines
  rw [hgroup false core_packages
        (fun p hp => mem_allInstallCommands_of_nondev p (by simp [hp])),
      hgroup false db_packages
        (fun p hp => mem_allInstallCommands_of_nondev p (by simp [hp])),
      hgroup false security_packages
        (fun p hp => mem_allInstallCommands_of_nondev p (by simp [hp])),
      hgroup false utility_packages
        (fun p hp => mem_allInstallCommands_of_nondev p (by simp [hp])),
      hgroup true dev_packages (fun p hp => mem_allInstallCommands_of_dev p hp)]
  rfl

/-- C4 witness: the all-success environment realizes the hypotheses. -/
theorem claim_C4_all_success_run_witness :
    (main (fun _ => SpawnOutcome.exit 0 "" "")).2 = MainResult.exit 0 ∧
      (main (fun _ => SpawnOutcome.exit 0 "" "")).1.lines = allSuccessLines :=
  ⟨(claim_C4_all_success_run (fun _ => SpawnOutcome.exit 0 "" "") rfl rfl
      (fun _ _ => rfl)).1,
   (claim_C4_all_success_run (fun _ => SpawnOutcome.exit 0 "" "") rfl rfl
      (fun _ _ => rfl)).2.1⟩

/-- C5 counterexample: when the OS-level spawn of the shell fails,
`run_command` does not convert the launch error into a `false` result: the
exception propagates, because only `subprocess.CalledProcessError` is
caught. -/
theorem claim_C5_counterexample :
    (run_command (fun _ => SpawnOutcome.oserror)
        (installCommand false "express@^4.18.2") "Express installed" Trace.empty).2 =
      Except.error PyError.oserror ∧
    (run_command (fun _ => SpawnOutcome.oserror)
        (installCommand false "express@^4.18.2") "Express installed" Trace.empty).2 ≠
      Except.ok false :=
  ⟨rfl, fun h => Except.noConfusion h⟩

/-- C5 (amended): `run_command` returns `true` exactly when the spawned
shell exits with status zero and `false` for every non-zero exit (a
command the shell cannot find surfaces as a non-zero shell exit and thus
as `false`); but an OS-level failure to spawn the shell itself is not
caught — only `subprocess.CalledProcessError` is — and propagates as an
exception instead of a `false` result. -/
theorem claim_C5_run_command_result (env : Env) (command msg : String) (t : Trace) :
    (run_command env command msg t).2 =
      (match env command with
       | SpawnOutcome.exit c _ _ => Except.ok (decide (c = 0))
       | SpawnOutcome.oserror => Except.error PyError.oserror) := by
  cases h : env command with
  | oserror => simp [run_command, h]
  | exit c out err =>
    cases c with
    | zero => simp [run_command, h]
    | succ n => simp [run_command, h, Nat.succ_ne_zero]

/-- C6 counterexample: when the OS-level spawn of the probe fails,
`check_dependency` does not return `false`: the exception propagates,
because only `subprocess.CalledProcessError` is caught. -/
theorem claim_C6_counterexample :
    (check_dependency (fun _ => SpawnOutcome.oserror)
        "node --version" "Node.js" Trace.empty).2 =
      Except.error PyError.oserror ∧
    (check_dependency (fun _ => SpawnOutcome.oserror)
        "node --version" "Node.js" Trace.empty).2 ≠
      Except.ok false :=
  ⟨rfl, fun h => Except.noConfusion h⟩

/-- C6 (amended): `check_dependency` returns `true` exactly when the probe
exits with status zero and `false` for every non-zero exit, and the line it
prints names only the tool — the probe's captured stdout and stderr text
never reaches the output; but an OS-level failure to spawn the probe is
not caught and propagates as an exception instead of a `false` result. -/
theorem claim_C6_check_dependency_result (env : Env) (command name : String)
    (t : Trace) :
    ((check_dependency env command name t).2 =
      (match env command with
       | SpawnOutcome.exit c _ _ => Except.ok (decide (c = 0))
       | SpawnOutcome.oserror => Except.error PyError.oserror)) ∧
    ((check_dependency env command name t).1.lines =
      t.lines ++
        (match env command with
         | SpawnOutcome.exit 0 _ _ => ["✓ " ++ name ++ " is installed"]
         | SpawnOutcome.exit (_ + 1) _ _ => ["✗ " ++ name ++ " is not installed"]
         | SpawnOutcome.oserror => [])) := by
  cases h : env command with
  | oserror => simp [check_dependency, h, Trace.spawn]
  | exit c out err =>
    cases c with
    | zero => simp [check_dependency, h, Trace.spawn, Trace.emit]
    | succ n => simp [check_dependency, h, Trace.spawn, Trace.emit, Nat.succ_ne_zero]

/-- C7: among the 26 commands the installer constructs from the catalog,
exactly the development-group commands carry the `--dev` token; the core,
database, security and utility commands omit it. -/
theorem claim_C7_dev_flag_token :
    ((core_packages ++ db_packages ++ security_packages ++ utility_packages).map
        (fun p => installCommand false p.1)).all (fun c => !(hasDevFlag c)) = true ∧
      (dev_packages.map (fun p => installCommand true p.1)).all
        (fun c => hasDevFlag c) = true := by
  constructor <;> decide

/-- C8: whenever both probes exit zero and every install spawn runs to an
exit status, `main` exits with status 0 no matter which install commands
fail; every group is still driven to completion (the full spawn list is
issued), and a security-group entry whose command exits non-zero logs its
failure line. -/
theorem claim_C8_exit_zero_despite_failures (env : Env)
    (hnode : (env "node --version").exitsZero = true)
    (hyarn : (env "yarn --version").exitsZero = true)
    (hinst : ∀ c ∈ allInstallCommands, (env c).isExit = true) :
    (main env).2 = MainResult.exit 0 ∧
      (main env).1.spawned = fullSpawned ∧
      (∀ p ∈ security_packages, (env (installCommand false p.1)).exitsZero = false →
        ("✗ Failed to install: " ++ p.2) ∈ (main env).1.lines) := by
  rw [main_success env hnode hyarn hinst]
  refine ⟨rfl, rfl, ?_⟩
  intro p hp hfail
  have hline : installLine env false p = "✗ Failed to install: " ++ p.2 := by
    simp [installLine, hfail]
  have hmem : ("✗ Failed to install: " ++ p.2) ∈
      security_packages.map (installLine env false) := by
    rw [← hline]
    exact List.mem_map_of_mem _ hp
  simp [fullLines, List.mem_append, hmem]

/-- C8 witness: in `securityFailEnv` the bcrypt install exits 1 while all
else exits 0; the run still exits 0 and logs the bcrypt failure line. -/
theorem claim_C8_exit_zero_despite_failures_witness :
    (main securityFailEnv).2 = MainResult.exit 0 ∧
      ("✗ Failed to install: " ++ "Bcrypt installed") ∈
        (main securityFailEnv).1.lines := by
  have hins : ∀ c ∈ allInstallCommands, (securityFailEnv c).isExit = true := by
    intro c hc
    by_cases hq : c = installCommand false "bcrypt@^5.1.1" <;>
      simp [securityFailEnv, hq, SpawnOutcome.isExit]
  have h := claim_C8_exit_zero_despite_failures securityFailEnv (by rfl) (by rfl) hins
  refine ⟨h.1, h.2.2 ("bcrypt@^5.1.1", "Bcrypt installed")
    (by simp [security_packages]) ?_⟩
  simp [securityFailEnv, SpawnOutcome.exitsZero]

/-- C9: `run_command` performs exactly one 2-second sleep after the command
completes, in the success case and in the failure case alike, before
returning. -/
theorem claim_C9_sleep_after_each_attempt (env : Env) (command msg : String)
    (t : Trace) (h : (env command).isExit = true) :
    (run_command env command msg t).1.sleeps = t.sleeps ++ [2] := by
  rw [run_command_isExit env command msg h t]
  rfl

/-- C9 witness: a failing install command (exit 1) still sleeps 2 seconds. -/
theorem claim_C9_sleep_after_each_attempt_witness :
    (run_command (fun _ => SpawnOutcome.exit 1 "" "")
        (installCommand false "express@^4.18.2") "Express installed"
        Trace.empty).1.sleeps =
      Trace.empty.sleeps ++ [2] :=
  claim_C9_sleep_after_each_attempt _ _ _ _ rfl

/-- C10: with the development flag false the constructed command
interpolates an empty token between two spaces, yielding two consecutive
spaces between `add` and the package specifier; with the flag true the
command is singly spaced around `--dev`. -/
theorem claim_C10_double_space (package : String) :
    installCommand false package = "yarn add  " ++ package ∧
    installCommand true package = "yarn add --dev " ++ package := by
  constructor <;> rfl

end InstallScript
